import Mathlib

set_option maxRecDepth 8192

/-!
Shallow embedding of the iot-paas-api device provisioning and device
management routes.

The data store (Supabase tables) is modelled as a list of device rows;
each row carries the user id of its owning project, mirroring the join
select with projects(user_id) used by the provision handler.  External
inputs that the code obtains from the environment (random bytes for the
password, the database-generated device token, the current timestamp,
whether a store write fails) are explicit parameters of the handler
functions, so every handler is a pure function from request and store to
response and store.
-/

/-- A device row, as stored in the devices table.  The field
project_user_id is the user_id of the owning project, available to the
provision handler through its join select. -/
structure Device where
  id : String
  project_id : String
  project_user_id : String
  name : String
  hardware_type : String
  device_token : String
  is_provisioned : Bool
  mqtt_username : Option String
  mqtt_password_hash : Option String
  mac_address : Option String
  firmware_version : Option String
  provisioned_at : Option String
deriving DecidableEq

abbrev Store := List Device

/-- user_id.replace with a hyphen regex and empty replacement: drop every
hyphen from the string. -/
def stripDashes (s : String) : String :=
  String.mk (s.data.filter (fun c => c ≠ '-'))

/-- The broker username derivation from the provision handler:
u_ then slice(0, 8) of the dashless owner user id, then _d_, then
slice(0, 8) of the dashless device id. -/
def mkMqttUsername (userId deviceId : String) : String :=
  "u_" ++ (stripDashes userId).take 8 ++ "_d_" ++ (stripDashes deviceId).take 8

/-- The URL-safe base64 alphabet used by Buffer.toString with the
base64url encoding. -/
def base64urlAlphabet : List Char :=
  String.data ("ABCDEFGHIJKLMNOPQRSTUVWXYZabcdefghijklmnopqrstuvwxyz0123456789-_")

def b64Char (n : Nat) : Char := base64urlAlphabet.getD n 'A'

/-- Unpadded base64url encoding of a byte list, three bytes to four
characters, as Buffer.toString with base64url produces. -/
def base64urlEncodeAux : List Nat → List Char
  | [] => []
  | [b1] => [b64Char (b1 / 4), b64Char (b1 % 4 * 16)]
  | [b1, b2] =>
      [b64Char (b1 / 4), b64Char (b1 % 4 * 16 + b2 / 16), b64Char (b2 % 16 * 4)]
  | b1 :: b2 :: b3 :: rest =>
      b64Char (b1 / 4) :: b64Char (b1 % 4 * 16 + b2 / 16) ::
      b64Char (b2 % 16 * 4 + b3 / 64) :: b64Char (b3 % 64) ::
      base64urlEncodeAux rest

/-- generateSecurePassword: crypto.randomBytes(24).toString(base64url).
The 24 random bytes are the explicit argument. -/
def generateSecurePassword (randomBytes : List Nat) : String :=
  String.mk (base64urlEncodeAux randomBytes)

/-! SHA-256, as computed by crypto.createHash(sha256) over the UTF-8
bytes of the input and rendered with digest(hex).  Words are naturals
reduced modulo 2 ^ 32. -/

def w32 (n : Nat) : Nat := n % 4294967296

def rotr32 (x n : Nat) : Nat := w32 (x / 2 ^ n + x % 2 ^ n * 2 ^ (32 - n))

def smallSigma0 (x : Nat) : Nat := (rotr32 x 7) ^^^ (rotr32 x 18) ^^^ (x / 2 ^ 3)
def smallSigma1 (x : Nat) : Nat := (rotr32 x 17) ^^^ (rotr32 x 19) ^^^ (x / 2 ^ 10)
def bigSigma0 (x : Nat) : Nat := (rotr32 x 2) ^^^ (rotr32 x 13) ^^^ (rotr32 x 22)
def bigSigma1 (x : Nat) : Nat := (rotr32 x 6) ^^^ (rotr32 x 11) ^^^ (rotr32 x 25)

def sha256K : List Nat :=
  [1116352408, 1899447441, 3049323471, 3921009573, 961987163,
   1508970993, 2453635748, 2870763221, 3624381080, 310598401,
   607225278, 1426881987, 1925078388, 2162078206, 2614888103,
   3248222580, 3835390401, 4022224774, 264347078, 604807628,
   770255983, 1249150122, 1555081692, 1996064986, 2554220882,
   2821834349, 2952996808, 3210313671, 3336571891, 3584528711,
   113926993, 338241895, 666307205, 773529912, 1294757372,
   1396182291, 1695183700, 1986661051, 2177026350, 2456956037,
   2730485921, 2820302411, 3259730800, 3345764771, 3516065817,
   3600352804, 4094571909, 275423344, 430227734, 506948616,
   659060556, 883997877, 958139571, 1322822218, 1537002063,
   1747873779, 1955562222, 2024104815, 2227730452, 2361852424,
   2428436474, 2756734187, 3204031479, 3329325298]

structure Hash8 where
  a : Nat
  b : Nat
  c : Nat
  d : Nat
  e : Nat
  f : Nat
  g : Nat
  h : Nat
deriving DecidableEq

def sha256Init : Hash8 :=
  ⟨1779033703, 3144134277, 1013904242, 2773480762,
   1359893119, 2600822924, 528734635, 1541459225⟩

/-- Big-endian eight-byte rendering of a length in bits. -/
def bigEndian8 (n : Nat) : List Nat :=
  [n / 2 ^ 56 % 256, n / 2 ^ 48 % 256, n / 2 ^ 40 % 256, n / 2 ^ 32 % 256,
   n / 2 ^ 24 % 256, n / 2 ^ 16 % 256, n / 2 ^ 8 % 256, n % 256]

/-- SHA-256 padding: a 0x80 byte, zeros, and the bit length, to a
multiple of 64 bytes. -/
def padMessage (bytes : List Nat) : List Nat :=
  let len := bytes.length
  let zeros := (64 - (len + 9) % 64) % 64
  bytes ++ [128] ++ List.replicate zeros 0 ++ bigEndian8 (len * 8)

/-- Big-endian packing of bytes into 32-bit words. -/
def bytesToWords : List Nat → List Nat
  | b0 :: b1 :: b2 :: b3 :: rest =>
      (b0 * 16777216 + b1 * 65536 + b2 * 256 + b3) :: bytesToWords rest
  | _ => []

/-- Split a word list into chunks of sixteen words. -/
def toChunks : List Nat → List (List Nat)
  | [] => []
  | w :: ws => ((w :: ws).take 16) :: toChunks ((w :: ws).drop 16)
termination_by l => l.length
decreasing_by simp [List.length_drop]; omega

/-- Extend a sixteen-word chunk to the 64-entry message schedule. -/
def extendSchedule : Nat → Array Nat → Array Nat
  | 0, ws => ws
  | k + 1, ws =>
      let i := ws.size
      let w := w32 (smallSigma1 (ws.getD (i - 2) 0) + ws.getD (i - 7) 0 +
                    smallSigma0 (ws.getD (i - 15) 0) + ws.getD (i - 16) 0)
      extendSchedule k (ws.push w)

/-- One SHA-256 round. -/
def sha256Round (st : Hash8) (kw : Nat × Nat) : Hash8 :=
  let ch := (st.e &&& st.f) ^^^ ((st.e ^^^ 4294967295) &&& st.g)
  let maj := (st.a &&& st.b) ^^^ (st.a &&& st.c) ^^^ (st.b &&& st.c)
  let temp1 := w32 (st.h + bigSigma1 st.e + ch + kw.1 + kw.2)
  let temp2 := w32 (bigSigma0 st.a + maj)
  ⟨w32 (temp1 + temp2), st.a, st.b, st.c, w32 (st.d + temp1), st.e, st.f, st.g⟩

/-- Compress one sixteen-word chunk into the running hash state. -/
def sha256Compress (st : Hash8) (chunk : List Nat) : Hash8 :=
  let sched := (extendSchedule 48 chunk.toArray).toList
  let out := (sha256K.zip sched).foldl sha256Round st
  ⟨w32 (st.a + out.a), w32 (st.b + out.b), w32 (st.c + out.c), w32 (st.d + out.d),
   w32 (st.e + out.e), w32 (st.f + out.f), w32 (st.g + out.g), w32 (st.h + out.h)⟩

def sha256Words (bytes : List Nat) : Hash8 :=
  (toChunks (bytesToWords (padMessage bytes))).foldl sha256Compress sha256Init

def hexDigits : List Char := String.data ("0123456789abcdef")

def hexDigit (n : Nat) : Char := hexDigits.getD n '0'

/-- Fixed-width lowercase hex of one 32-bit word, eight characters. -/
def toHex8 (n : Nat) : List Char :=
  [hexDigit (n / 16 ^ 7 % 16), hexDigit (n / 16 ^ 6 % 16),
   hexDigit (n / 16 ^ 5 % 16), hexDigit (n / 16 ^ 4 % 16),
   hexDigit (n / 16 ^ 3 % 16), hexDigit (n / 16 ^ 2 % 16),
   hexDigit (n / 16 % 16), hexDigit (n % 16)]

def sha256hex (bytes : List Nat) : String :=
  let st := sha256Words bytes
  String.mk (toHex8 st.a ++ toHex8 st.b ++ toHex8 st.c ++ toHex8 st.d ++
             toHex8 st.e ++ toHex8 st.f ++ toHex8 st.g ++ toHex8 st.h)

/-- Byte sequence of a string.  The passwords this program hashes are
base64url strings, pure ASCII, where the UTF-8 bytes are the character
codes. -/
def strBytes (s : String) : List Nat := s.data.map Char.toNat

/-- hashPassword: crypto.createHash(sha256).update(password).digest(hex). -/
def hashPassword (password : String) : String := sha256hex (strBytes password)

/-! The topic namespace built by the provision handler from the owning
user id and the device id. -/

structure Topics where
  subscribe : String
  statePrefix : String
  telemetryPrefix : String
deriving DecidableEq

def topicBase (userId deviceId : String) : String :=
  "u/" ++ userId ++ "/d/" ++ deviceId

def topics (userId deviceId : String) : Topics :=
  { subscribe := topicBase userId deviceId ++ "/cmd/#"
    statePrefix := topicBase userId deviceId ++ "/state/"
    telemetryPrefix := topicBase userId deviceId ++ "/tel/" }

/-! The provision route. -/

structure ProvisionRequest where
  device_token : String
  mac_address : Option String
  firmware_version : Option String
deriving DecidableEq

def isHexChar (c : Char) : Bool :=
  ('0' ≤ c && c ≤ '9') || ('a' ≤ c && c ≤ 'f') || ('A' ≤ c && c ≤ 'F')

/-- The mac_address validator: six two-digit hex octets separated by
colons. -/
def macValid (s : String) : Bool :=
  match s.data with
  | [a1, a2, ':', b1, b2, ':', c1, c2, ':', d1, d2, ':', e1, e2, ':', f1, f2] =>
      [a1, a2, b1, b2, c1, c2, d1, d2, e1, e2, f1, f2].all isHexChar
  | _ => false

/-- The express-validator chain on the provision route: device_token is
a string of length exactly 64, mac_address when present matches the mac
shape, firmware_version when present is a string. -/
def validProvisionRequest (req : ProvisionRequest) : Bool :=
  req.device_token.length == 64 &&
  (match req.mac_address with
   | some m => macValid m
   | none => true)

structure MqttInfo where
  host : String
  port : Nat
  username : String
  password : String
  client_id : String
  use_tls : Bool
deriving DecidableEq

structure ProvisionSuccess where
  mqtt : MqttInfo
  topics : Topics
  device_id : String
  device_name : String
deriving DecidableEq

inductive ProvisionResponse where
  | badRequest
  | invalidToken
  | alreadyProvisioned
  | serverError
  | success (body : ProvisionSuccess)
deriving DecidableEq

/-- The plaintext password carried by a provision response, when any. -/
def passwordOf : ProvisionResponse → Option String
  | .success body => some body.mqtt.password
  | _ => none

/-- select ... eq(device_token, token) ... single(): the device row
whose token matches. -/
def findByToken (store : Store) (token : String) : Option Device :=
  store.find? (fun d => d.device_token == token)

/-- update(...).eq(id, deviceId): apply the column updates to every row
whose id matches. -/
def updateWhere (store : Store) (deviceId : String) (f : Device → Device) : Store :=
  store.map (fun d => if d.id == deviceId then f d else d)

/-- The column updates of the provision handler.  A request field left
undefined is dropped from the update payload by JSON serialisation, so
the stored column keeps its value. -/
def provisionUpdate (username passwordHash : String) (mac fw : Option String)
    (now : String) (d : Device) : Device :=
  { d with
    mqtt_username := some username
    mqtt_password_hash := some passwordHash
    mac_address := match mac with | some v => some v | none => d.mac_address
    firmware_version := match fw with | some v => some v | none => d.firmware_version
    is_provisioned := true
    provisioned_at := some now }

/-- POST /api/provision.  randomBytes are the 24 bytes drawn for the
password, now is the timestamp, brokerHost is the EMQX_BROKER_HOST
environment variable, updateFails tells whether the store update
errors. -/
def provisionHandler (store : Store) (req : ProvisionRequest)
    (randomBytes : List Nat) (now : String) (brokerHost : Option String)
    (updateFails : Bool) : ProvisionResponse × Store :=
  if !validProvisionRequest req then (.badRequest, store)
  else
    match findByToken store req.device_token with
    | none => (.invalidToken, store)
    | some device =>
      if device.is_provisioned then (.alreadyProvisioned, store)
      else
        let mqttUsername := mkMqttUsername device.project_user_id device.id
        let mqttPassword := generateSecurePassword randomBytes
        if updateFails then (.serverError, store)
        else
          let store2 := updateWhere store device.id
            (provisionUpdate mqttUsername (hashPassword mqttPassword)
              req.mac_address req.firmware_version now)
          (.success
            { mqtt :=
                { host := match brokerHost with | some h => h | none => "broker.emqx.io"
                  port := 8883
                  username := mqttUsername
                  password := mqttPassword
                  client_id := device.id
                  use_tls := true }
              topics := topics device.project_user_id device.id
              device_id := device.id
              device_name := device.name }, store2)

/-! The devices routes.  Responses that serialise a device row are
modelled as a record of optional fields; a field set to undefined is
dropped by JSON serialisation and appears here as none, as does a null
column. -/

structure DeviceJson where
  id : Option String
  project_id : Option String
  name : Option String
  hardware_type : Option String
  device_token : Option String
  is_provisioned : Option Bool
  mqtt_username : Option String
  mqtt_password_hash : Option String
  mac_address : Option String
  firmware_version : Option String
deriving DecidableEq

/-- The spread of a device row with device_token and mqtt_password_hash
overwritten by undefined, used by the list, get and update routes. -/
def sanitizeDevice (d : Device) : DeviceJson :=
  { id := some d.id
    project_id := some d.project_id
    name := some d.name
    hardware_type := some d.hardware_type
    device_token := none
    is_provisioned := some d.is_provisioned
    mqtt_username := d.mqtt_username
    mqtt_password_hash := none
    mac_address := d.mac_address
    firmware_version := d.firmware_version }

/-- A device row serialised as is, every column included. -/
def deviceToJson (d : Device) : DeviceJson :=
  { id := some d.id
    project_id := some d.project_id
    name := some d.name
    hardware_type := some d.hardware_type
    device_token := some d.device_token
    is_provisioned := some d.is_provisioned
    mqtt_username := d.mqtt_username
    mqtt_password_hash := d.mqtt_password_hash
    mac_address := d.mac_address
    firmware_version := d.firmware_version }

/-- GET /api/devices: the listed rows, sanitized. -/
def listDevices (store : Store) (projectFilter : Option String) : List DeviceJson :=
  (match projectFilter with
   | some pid => store.filter (fun (d : Device) => d.project_id == pid)
   | none => store).map sanitizeDevice

inductive GetDeviceResponse where
  | notFound
  | ok (device : DeviceJson)
deriving DecidableEq

/-- GET /api/devices/:id. -/
def getDevice (store : Store) (deviceId : String) : GetDeviceResponse :=
  match store.find? (fun d => d.id == deviceId) with
  | none => .notFound
  | some d => .ok (sanitizeDevice d)

inductive CreateDeviceResponse where
  | badRequest
  | projectNotFound
  | created (device : DeviceJson) (message : String)
deriving DecidableEq

/-- The row inserted by POST /api/devices: hardware_type defaults to
ESP32, the provisioning columns start at their defaults. -/
def newDeviceRow (project_id ownerId devName : String)
    (hardware_type : Option String) (newId token : String) : Device :=
  { id := newId
    project_id := project_id
    project_user_id := ownerId
    name := devName
    hardware_type := match hardware_type with | some h => h | none => "ESP32"
    device_token := token
    is_provisioned := false
    mqtt_username := none
    mqtt_password_hash := none
    mac_address := none
    firmware_version := none
    provisioned_at := none }

/-- POST /api/devices.  projects are the project ids visible to the
caller, newId the row id assigned by the store, ownerId the user id of
the owning project, token the database-generated device token. -/
def createDevice (store : Store) (projects : List String)
    (project_id devName : String) (hardware_type : Option String)
    (newId ownerId token : String) : CreateDeviceResponse × Store :=
  if !(1 ≤ devName.length && devName.length ≤ 100) then (.badRequest, store)
  else if !(projects.contains project_id) then (.projectNotFound, store)
  else
    (.created
      { deviceToJson (newDeviceRow project_id ownerId devName hardware_type newId token) with
          mqtt_password_hash := none }
      "Save this device_token! It will not be shown again.",
     store ++ [newDeviceRow project_id ownerId devName hardware_type newId token])

structure DevicePatch where
  name : Option String
  hardware_type : Option String
deriving DecidableEq

inductive PatchResponse where
  | badRequest
  | notFound
  | ok (device : DeviceJson)
deriving DecidableEq

/-- The validator chain on PATCH /api/devices/:id: name when present has
length 1 to 100, hardware_type when present is a string. -/
def validPatch (p : DevicePatch) : Bool :=
  match p.name with
  | some n => 1 ≤ n.length && n.length ≤ 100
  | none => true

/-- The column updates of PATCH /api/devices/:id: only name and
hardware_type. -/
def patchUpdate (p : DevicePatch) (d : Device) : Device :=
  { d with
    name := match p.name with | some n => n | none => d.name
    hardware_type := match p.hardware_type with | some h => h | none => d.hardware_type }

/-- PATCH /api/devices/:id. -/
def patchDevice (store : Store) (deviceId : String) (p : DevicePatch) :
    PatchResponse × Store :=
  if !validPatch p then (.badRequest, store)
  else if p.name == none && p.hardware_type == none then (.badRequest, store)
  else
    match store.find? (fun d => d.id == deviceId) with
    | none => (.notFound, store)
    | some d =>
        (.ok (sanitizeDevice (patchUpdate p d)), updateWhere store deviceId (patchUpdate p))

inductive RegenResponse where
  | notFound
  | ok (device : DeviceJson) (message : String)
deriving DecidableEq

/-- The column updates of POST /api/devices/:id/regenerate-token. -/
def regenUpdate (newToken : String) (d : Device) : Device :=
  { d with
    device_token := newToken
    is_provisioned := false
    mqtt_username := none
    mqtt_password_hash := none }

/-- POST /api/devices/:id/regenerate-token.  newToken is the token
produced by the generate_device_token database function.  The response
serialises the updated row as is. -/
def regenerateToken (store : Store) (deviceId newToken : String) :
    RegenResponse × Store :=
  match store.find? (fun d => d.id == deviceId) with
  | none => (.notFound, store)
  | some d =>
      (.ok (deviceToJson (regenUpdate newToken d))
        "New device_token generated. Save it! The old token is now invalid.",
       updateWhere store deviceId (regenUpdate newToken))

example : (topics ("u1") ("d2")).subscribe = "u/u1/d/d2/cmd/#" := by decide
example : macValid ("AA:BB:CC:DD:EE:FF") = true := by decide
example : macValid ("AA:BB:CC:DD:EE:F") = false := by decide

/-! Helper lemmas. -/

theorem find?_map_pred_inv {α : Type} (g : α → α) (p : α → Bool)
    (hp : ∀ x, p (g x) = p x) (l : List α) :
    (l.map g).find? p = (l.find? p).map g := by
  induction l with
  | nil => rfl
  | cons a t ih =>
      simp only [List.map_cons, List.find?]
      rw [hp a]
      cases h : p a
      · simpa using ih
      · simp

theorem base64urlEncodeAux_length (l : List Nat) :
    l.length % 3 = 0 → (base64urlEncodeAux l).length = l.length / 3 * 4 := by
  induction l using base64urlEncodeAux.induct with
  | case1 => intro _; rfl
  | case2 b1 => intro h; simp at h
  | case3 b1 b2 => intro h; simp at h
  | case4 b1 b2 b3 rest ih =>
      intro h
      simp only [List.length_cons] at h
      simp only [base64urlEncodeAux, List.length_cons]
      rw [ih (by omega)]
      omega

theorem b64Char_mem {n : Nat} (h : n < 64) : b64Char n ∈ base64urlAlphabet := by
  have hlen64 : base64urlAlphabet.length = 64 := by decide
  have hlen : n < base64urlAlphabet.length := by omega
  rw [b64Char, List.getD_eq_getElem base64urlAlphabet 'A' hlen]
  exact List.getElem_mem hlen

theorem base64urlEncodeAux_mem (l : List Nat) :
    (∀ b ∈ l, b < 256) → ∀ c ∈ base64urlEncodeAux l, c ∈ base64urlAlphabet := by
  induction l using base64urlEncodeAux.induct with
  | case1 => intro _ c hc; simp [base64urlEncodeAux] at hc
  | case2 b1 =>
      intro hb c hc
      have h1 : b1 < 256 := hb b1 (by simp)
      simp only [base64urlEncodeAux, List.mem_cons, List.not_mem_nil, or_false] at hc
      rcases hc with h | h <;> (subst h; exact b64Char_mem (by omega))
  | case3 b1 b2 =>
      intro hb c hc
      have h1 : b1 < 256 := hb b1 (by simp)
      have h2 : b2 < 256 := hb b2 (by simp)
      simp only [base64urlEncodeAux, List.mem_cons, List.not_mem_nil, or_false] at hc
      rcases hc with h | h | h <;> (subst h; exact b64Char_mem (by omega))
  | case4 b1 b2 b3 rest ih =>
      intro hb c hc
      have h1 : b1 < 256 := hb b1 (by simp)
      have h2 : b2 < 256 := hb b2 (by simp)
      have h3 : b3 < 256 := hb b3 (by simp)
      have hrest : ∀ b ∈ rest, b < 256 := by
        intro b hbm; exact hb b (by simp [hbm])
      simp only [base64urlEncodeAux, List.mem_cons] at hc
      rcases hc with h | h | h | h | h
      · subst h; exact b64Char_mem (by omega)
      · subst h; exact b64Char_mem (by omega)
      · subst h; exact b64Char_mem (by omega)
      · subst h; exact b64Char_mem (by omega)
      · exact ih hrest c h

theorem generateSecurePassword_length (l : List Nat) (h : l.length = 24) :
    (generateSecurePassword l).length = 32 := by
  have h2 := base64urlEncodeAux_length l (by omega)
  simp only [generateSecurePassword, String.length]
  rw [h2, h]

theorem hashPassword_length (s : String) : (hashPassword s).length = 64 := by
  simp [hashPassword, sha256hex, toHex8, String.length]

theorem findByToken_updateWhere_self (store : Store) (token deviceId : String)
    (d : Device) (f : Device → Device)
    (hf : ∀ x, (f x).device_token = x.device_token)
    (hid : (d.id == deviceId) = true)
    (hfind : findByToken store token = some d) :
    findByToken (updateWhere store deviceId f) token = some (f d) := by
  have hp : ∀ x : Device,
      ((if x.id == deviceId then f x else x).device_token == token) =
      (x.device_token == token) := by
    intro x
    cases h : x.id == deviceId
    · simp [h]
    · simp [h, hf x]
  unfold findByToken updateWhere
  unfold findByToken at hfind
  rw [find?_map_pred_inv _ _ hp store, hfind]
  simp only [Option.map_some']
  rw [if_pos hid]

theorem findById_updateWhere_self (store : Store) (deviceId : String)
    (d : Device) (f : Device → Device)
    (hf : ∀ x, (f x).id = x.id)
    (hfind : store.find? (fun x => x.id == deviceId) = some d) :
    (updateWhere store deviceId f).find? (fun x => x.id == deviceId) =
      some (f d) := by
  have hp : ∀ x : Device,
      ((if x.id == deviceId then f x else x).id == deviceId) =
      (x.id == deviceId) := by
    intro x
    cases h : x.id == deviceId
    · simp [h]
    · simp [h, hf x]
  have hbeq := List.find?_some hfind
  unfold updateWhere
  rw [find?_map_pred_inv _ _ hp store, hfind]
  simp only [Option.map_some']
  rw [if_pos hbeq]

/-- The state invariant tying the provisioned flag to the broker
credential columns. -/
def credInvariant (d : Device) : Prop :=
  d.is_provisioned = true ↔ (d.mqtt_username ≠ none ∧ d.mqtt_password_hash ≠ none)

instance (d : Device) : Decidable (credInvariant d) := by
  unfold credInvariant; infer_instance

theorem credInvariant_updateWhere (store : Store) (deviceId : String)
    (f : Device → Device)
    (hstore : ∀ d ∈ store, credInvariant d)
    (hf : ∀ x, credInvariant x → credInvariant (f x)) :
    ∀ d ∈ updateWhere store deviceId f, credInvariant d := by
  intro d hd
  unfold updateWhere at hd
  rw [List.mem_map] at hd
  obtain ⟨a, ha, rfl⟩ := hd
  cases h : a.id == deviceId
  · simp only [h, Bool.false_eq_true, if_false]
    exact hstore a ha
  · simp only [h, if_true]
    exact hf a (hstore a ha)

/-- Demonstration rows used by the witness statements. -/
def demoOwnerId : String := "11111111-1111-1111-1111-111111111111"

def demoDeviceId : String := "22222222-2222-2222-2222-222222222222"

def demoToken : String := String.mk (List.replicate 64 'b')

def demoDevice : Device :=
  { id := demoDeviceId
    project_id := "p1"
    project_user_id := demoOwnerId
    name := "demo"
    hardware_type := "ESP32"
    device_token := demoToken
    is_provisioned := false
    mqtt_username := none
    mqtt_password_hash := none
    mac_address := none
    firmware_version := none
    provisioned_at := none }

def demoProvisioned : Device :=
  { id := "33333333-3333-3333-3333-333333333333"
    project_id := "p2"
    project_user_id := demoOwnerId
    name := "demo2"
    hardware_type := "ESP32"
    device_token := String.mk (List.replicate 64 'c')
    is_provisioned := true
    mqtt_username := some ("u_11111111_d_33333333")
    mqtt_password_hash := some ("deadbeef")
    mac_address := none
    firmware_version := none
    provisioned_at := some ("t1") }

/-- Claim C6: the topic namespace is a pure function of the owner id and
device id alone, producing exactly the cmd wildcard subscribe pattern,
the state prefix and the telemetry prefix, and it is unchanged by the
credential updates of provisioning and of token regeneration. -/
theorem topics_pure_and_stable :
    (∀ u d : String, topics u d =
      { subscribe := "u/" ++ u ++ "/d/" ++ d ++ "/cmd/#"
        statePrefix := "u/" ++ u ++ "/d/" ++ d ++ "/state/"
        telemetryPrefix := "u/" ++ u ++ "/d/" ++ d ++ "/tel/" }) ∧
    (∀ (tok : String) (dev : Device),
      topics (regenUpdate tok dev).project_user_id (regenUpdate tok dev).id =
        topics dev.project_user_id dev.id) ∧
    (∀ (u p : String) (mac fw : Option String) (now : String) (dev : Device),
      topics (provisionUpdate u p mac fw now dev).project_user_id
          (provisionUpdate u p mac fw now dev).id =
        topics dev.project_user_id dev.id) :=
  ⟨fun _ _ => rfl, fun _ _ => rfl, fun _ _ _ _ _ _ => rfl⟩

/-- Claim C9: hashPassword is deterministic, a string whose length is
not 64 never equals its own stored hash, and in particular no generated
password ever equals its stored hash. -/
theorem hashPassword_deterministic_and_distinct :
    (∀ s t : String, s = t → hashPassword s = hashPassword t) ∧
    (∀ s : String, s.length ≠ 64 → hashPassword s ≠ s) ∧
    (∀ randomBytes : List Nat, randomBytes.length = 24 →
      hashPassword (generateSecurePassword randomBytes) ≠
        generateSecurePassword randomBytes) := by
  refine ⟨fun s t h => by rw [h], ?_, ?_⟩
  · intro s hs hcontra
    have h1 := hashPassword_length s
    rw [hcontra] at h1
    exact hs h1
  · intro rb hrb hcontra
    have h1 := hashPassword_length (generateSecurePassword rb)
    have h2 := generateSecurePassword_length rb hrb
    rw [hcontra, h2] at h1
    exact absurd h1 (by decide)

theorem hashPassword_deterministic_and_distinct_witness :
    (List.replicate 24 0).length = 24 ∧
    hashPassword (generateSecurePassword (List.replicate 24 0)) ≠
      generateSecurePassword (List.replicate 24 0) :=
  ⟨by decide,
   hashPassword_deterministic_and_distinct.2.2 (List.replicate 24 0) (by decide)⟩

/-- Claim C8: a provision request whose valid 64-character token matches
no stored device gets a 401 invalid-token response and leaves the store
untouched; the handler consults no bearer credential. -/
theorem provision_unknown_token_401 (store : Store) (req : ProvisionRequest)
    (randomBytes : List Nat) (now : String) (brokerHost : Option String)
    (updateFails : Bool)
    (_hlen : req.device_token.length = 64)
    (hvalid : validProvisionRequest req = true)
    (hfind : findByToken store req.device_token = none) :
    provisionHandler store req randomBytes now brokerHost updateFails =
      (.invalidToken, store) := by
  simp [provisionHandler, hvalid, hfind]

def tokenA64 : String := String.mk (List.replicate 64 'a')

theorem provision_unknown_token_401_witness :
    tokenA64.length = 64 ∧
    validProvisionRequest ⟨tokenA64, none, none⟩ = true ∧
    findByToken [demoDevice] tokenA64 = none ∧
    provisionHandler [demoDevice] ⟨tokenA64, none, none⟩ [] "t0" none false =
      (.invalidToken, [demoDevice]) :=
  ⟨by decide, by decide, by decide,
   provision_unknown_token_401 [demoDevice] ⟨tokenA64, none, none⟩ [] "t0" none
     false (by decide) (by decide) (by decide)⟩

/-- Claim C1: provisioning an unprovisioned device whose token matches
the request succeeds; the stored broker username is u_ plus the first
eight characters of the dashless owner user id plus _d_ plus the first
eight characters of the dashless device id, the device becomes
provisioned, and the response carries a fresh password of length at
least 32 over the URL-safe base64 alphabet. -/
theorem provision_success_contract (store : Store) (req : ProvisionRequest)
    (randomBytes : List Nat) (now : String) (brokerHost : Option String)
    (d : Device)
    (hvalid : validProvisionRequest req = true)
    (hfind : findByToken store req.device_token = some d)
    (hunprov : d.is_provisioned = false)
    (hlen : randomBytes.length = 24)
    (hbytes : ∀ b ∈ randomBytes, b < 256) :
    ∃ body : ProvisionSuccess,
      (provisionHandler store req randomBytes now brokerHost false).1 =
        .success body ∧
      body.mqtt.password = generateSecurePassword randomBytes ∧
      32 ≤ body.mqtt.password.length ∧
      (∀ c ∈ body.mqtt.password.data, c ∈ base64urlAlphabet) ∧
      body.mqtt.username =
        "u_" ++ (stripDashes d.project_user_id).take 8 ++ "_d_" ++
          (stripDashes d.id).take 8 ∧
      ∃ d2 : Device,
        findByToken (provisionHandler store req randomBytes now brokerHost false).2
          req.device_token = some d2 ∧
        d2.is_provisioned = true ∧
        d2.mqtt_username = some body.mqtt.username ∧
        d2.mqtt_password_hash = some (hashPassword body.mqtt.password) := by
  have hres : provisionHandler store req randomBytes now brokerHost false =
      (.success
        { mqtt :=
            { host := match brokerHost with | some h => h | none => "broker.emqx.io"
              port := 8883
              username := mkMqttUsername d.project_user_id d.id
              password := generateSecurePassword randomBytes
              client_id := d.id
              use_tls := true }
          topics := topics d.project_user_id d.id
          device_id := d.id
          device_name := d.name },
       updateWhere store d.id
         (provisionUpdate (mkMqttUsername d.project_user_id d.id)
           (hashPassword (generateSecurePassword randomBytes))
           req.mac_address req.firmware_version now)) := by
    simp [provisionHandler, hvalid, hfind, hunprov]
  rw [hres]
  refine ⟨_, rfl, rfl, (generateSecurePassword_length randomBytes hlen).ge, ?_, rfl, ?_⟩
  · exact base64urlEncodeAux_mem randomBytes hbytes
  · exact ⟨_,
      findByToken_updateWhere_self store req.device_token d.id d _
        (fun x => rfl) (by simp) hfind,
      rfl, rfl, rfl⟩

theorem provision_success_contract_witness :
    validProvisionRequest ⟨demoToken, none, none⟩ = true ∧
    findByToken [demoDevice] demoToken = some demoDevice ∧
    demoDevice.is_provisioned = false ∧
    (List.replicate 24 0).length = 24 ∧
    ∃ body : ProvisionSuccess,
      (provisionHandler [demoDevice] ⟨demoToken, none, none⟩
        (List.replicate 24 0) "t0" none false).1 = .success body ∧
      body.mqtt.password = generateSecurePassword (List.replicate 24 0) ∧
      32 ≤ body.mqtt.password.length ∧
      (∀ c ∈ body.mqtt.password.data, c ∈ base64urlAlphabet) ∧
      body.mqtt.username =
        "u_" ++ (stripDashes demoDevice.project_user_id).take 8 ++ "_d_" ++
          (stripDashes demoDevice.id).take 8 ∧
      ∃ d2 : Device,
        findByToken (provisionHandler [demoDevice] ⟨demoToken, none, none⟩
          (List.replicate 24 0) "t0" none false).2 demoToken = some d2 ∧
        d2.is_provisioned = true ∧
        d2.mqtt_username = some body.mqtt.username ∧
        d2.mqtt_password_hash = some (hashPassword body.mqtt.password) :=
  ⟨by decide, by decide, by decide, by decide,
   provision_success_contract [demoDevice] ⟨demoToken, none, none⟩
     (List.replicate 24 0) "t0" none demoDevice
     (by decide) (by decide) (by decide) (by decide) (by decide)⟩

/-- Claim C2: provisioning the same token twice in sequence gives one
success and then one 409 conflict, distinct from the 401 constructor;
the second call leaves the store untouched and the device stays
provisioned. -/
theorem provision_twice_success_then_conflict (store : Store)
    (req : ProvisionRequest) (rb1 rb2 : List Nat) (now1 now2 : String)
    (bh1 bh2 : Option String) (fails2 : Bool) (d : Device)
    (hvalid : validProvisionRequest req = true)
    (hfind : findByToken store req.device_token = some d)
    (hunprov : d.is_provisioned = false) :
    ∃ (body : ProvisionSuccess) (store1 : Store),
      provisionHandler store req rb1 now1 bh1 false = (.success body, store1) ∧
      provisionHandler store1 req rb2 now2 bh2 fails2 =
        (.alreadyProvisioned, store1) ∧
      (ProvisionResponse.alreadyProvisioned ≠ ProvisionResponse.invalidToken) ∧
      ∃ d2 : Device, findByToken store1 req.device_token = some d2 ∧
        d2.is_provisioned = true := by
  have hres : provisionHandler store req rb1 now1 bh1 false =
      (.success
        { mqtt :=
            { host := match bh1 with | some h => h | none => "broker.emqx.io"
              port := 8883
              username := mkMqttUsername d.project_user_id d.id
              password := generateSecurePassword rb1
              client_id := d.id
              use_tls := true }
          topics := topics d.project_user_id d.id
          device_id := d.id
          device_name := d.name },
       updateWhere store d.id
         (provisionUpdate (mkMqttUsername d.project_user_id d.id)
           (hashPassword (generateSecurePassword rb1))
           req.mac_address req.firmware_version now1)) := by
    simp [provisionHandler, hvalid, hfind, hunprov]
  have hfind1 : findByToken
      (updateWhere store d.id
        (provisionUpdate (mkMqttUsername d.project_user_id d.id)
          (hashPassword (generateSecurePassword rb1))
          req.mac_address req.firmware_version now1))
      req.device_token =
      some (provisionUpdate (mkMqttUsername d.project_user_id d.id)
        (hashPassword (generateSecurePassword rb1))
        req.mac_address req.firmware_version now1 d) :=
    findByToken_updateWhere_self store req.device_token d.id d _
      (fun x => rfl) (by simp) hfind
  refine ⟨_, _, hres, ?_, by decide, _, hfind1, rfl⟩
  simp [provisionHandler, hvalid, hfind1, provisionUpdate]

theorem provision_twice_success_then_conflict_witness :
    validProvisionRequest ⟨demoToken, none, none⟩ = true ∧
    findByToken [demoDevice] demoToken = some demoDevice ∧
    demoDevice.is_provisioned = false ∧
    ∃ (body : ProvisionSuccess) (store1 : Store),
      provisionHandler [demoDevice] ⟨demoToken, none, none⟩
        (List.replicate 24 1) "t0" none false = (.success body, store1) ∧
      provisionHandler store1 ⟨demoToken, none, none⟩
        (List.replicate 24 2) "t1" none false = (.alreadyProvisioned, store1) ∧
      (ProvisionResponse.alreadyProvisioned ≠ ProvisionResponse.invalidToken) ∧
      ∃ d2 : Device, findByToken store1 demoToken = some d2 ∧
        d2.is_provisioned = true :=
  ⟨by decide, by decide, by decide,
   provision_twice_success_then_conflict [demoDevice] ⟨demoToken, none, none⟩
     (List.replicate 24 1) (List.replicate 24 2) "t0" "t1" none none false
     demoDevice (by decide) (by decide) (by decide)⟩

/-- Claim C4: when the store write persisting the credentials fails, the
provision handler leaves the store untouched, no response carries a
plaintext password, and the reachable outcome on an otherwise valid
request is the 500 server error. -/
theorem provision_write_failure_no_credentials (store : Store)
    (req : ProvisionRequest) (randomBytes : List Nat) (now : String)
    (brokerHost : Option String) :
    (provisionHandler store req randomBytes now brokerHost true).2 = store ∧
    passwordOf (provisionHandler store req randomBytes now brokerHost true).1 =
      none ∧
    (validProvisionRequest req = true →
      ∀ d, findByToken store req.device_token = some d →
        d.is_provisioned = false →
        (provisionHandler store req randomBytes now brokerHost true).1 =
          .serverError) := by
  by_cases hv : validProvisionRequest req = true
  · cases hfind : findByToken store req.device_token with
    | none =>
        refine ⟨?_, ?_, ?_⟩ <;> simp [provisionHandler, hv, hfind, passwordOf]
    | some d =>
        cases hp : d.is_provisioned
        · refine ⟨?_, ?_, ?_⟩ <;>
            simp [provisionHandler, hv, hfind, hp, passwordOf]
        · refine ⟨?_, ?_, ?_⟩
          · simp [provisionHandler, hv, hfind, hp]
          · simp [provisionHandler, hv, hfind, hp, passwordOf]
          · intro _ d2 hd2 hd2p
            have hde : d = d2 := by injection hd2
            subst hde
            rw [hp] at hd2p
            exact absurd hd2p (by simp)
  · refine ⟨?_, ?_, ?_⟩
    · simp [provisionHandler, hv]
    · simp [provisionHandler, hv, passwordOf]
    · intro hcontra
      exact absurd hcontra hv

theorem provision_write_failure_no_credentials_witness :
    validProvisionRequest ⟨demoToken, none, none⟩ = true ∧
    findByToken [demoDevice] demoToken = some demoDevice ∧
    demoDevice.is_provisioned = false ∧
    (provisionHandler [demoDevice] ⟨demoToken, none, none⟩ [] "t0" none true).2 =
      [demoDevice] ∧
    passwordOf
      (provisionHandler [demoDevice] ⟨demoToken, none, none⟩ [] "t0" none true).1 =
      none ∧
    (provisionHandler [demoDevice] ⟨demoToken, none, none⟩ [] "t0" none true).1 =
      .serverError :=
  ⟨by decide, by decide, by decide,
   (provision_write_failure_no_credentials [demoDevice] ⟨demoToken, none, none⟩
     [] "t0" none).1,
   (provision_write_failure_no_credentials [demoDevice] ⟨demoToken, none, none⟩
     [] "t0" none).2.1,
   (provision_write_failure_no_credentials [demoDevice] ⟨demoToken, none, none⟩
     [] "t0" none).2.2 (by decide) demoDevice (by decide) (by decide)⟩

/-- Claim C5: regenerating the token of an existing device stores the
new token, resets the provisioned flag, nulls both broker credential
columns, and returns the new plaintext token in the response. -/
theorem regenerate_token_contract (store : Store) (deviceId newToken : String)
    (d : Device)
    (hfind : store.find? (fun x => x.id == deviceId) = some d) :
    ∃ (j : DeviceJson) (store2 : Store),
      regenerateToken store deviceId newToken =
        (.ok j ("New device_token generated. Save it! The old token is now invalid."),
         store2) ∧
      j.device_token = some newToken ∧
      j.is_provisioned = some false ∧
      j.mqtt_username = none ∧
      j.mqtt_password_hash = none ∧
      ∃ d2 : Device, store2.find? (fun x => x.id == deviceId) = some d2 ∧
        d2.device_token = newToken ∧
        d2.is_provisioned = false ∧
        d2.mqtt_username = none ∧
        d2.mqtt_password_hash = none := by
  have hres : regenerateToken store deviceId newToken =
      (.ok (deviceToJson (regenUpdate newToken d))
        "New device_token generated. Save it! The old token is now invalid.",
       updateWhere store deviceId (regenUpdate newToken)) := by
    simp [regenerateToken, hfind]
  exact ⟨_, _, hres, rfl, rfl, rfl, rfl, _,
    findById_updateWhere_self store deviceId d _ (fun x => rfl) hfind,
    rfl, rfl, rfl, rfl⟩

theorem regenerate_token_contract_witness :
    List.find? (fun x => x.id == demoProvisioned.id) [demoProvisioned] =
      some demoProvisioned ∧
    ∃ (j : DeviceJson) (store2 : Store),
      regenerateToken [demoProvisioned] demoProvisioned.id tokenA64 =
        (.ok j ("New device_token generated. Save it! The old token is now invalid."),
         store2) ∧
      j.device_token = some tokenA64 ∧
      j.is_provisioned = some false ∧
      j.mqtt_username = none ∧
      j.mqtt_password_hash = none ∧
      ∃ d2 : Device,
        store2.find? (fun x => x.id == demoProvisioned.id) = some d2 ∧
        d2.device_token = tokenA64 ∧
        d2.is_provisioned = false ∧
        d2.mqtt_username = none ∧
        d2.mqtt_password_hash = none :=
  ⟨by decide,
   regenerate_token_contract [demoProvisioned] demoProvisioned.id tokenA64
     demoProvisioned (by decide)⟩

/-- Claim C3: the invariant tying is_provisioned to the non-nullness of
both broker credential columns is preserved by every state-changing
route: provisioning sets all three fields in one update, regeneration
nulls the credentials while resetting the flag in one update, and the
create and patch routes never break it. -/
theorem cred_invariant_preserved (store : Store)
    (hstore : ∀ d ∈ store, credInvariant d) :
    (∀ req randomBytes now brokerHost updateFails,
      ∀ d ∈ (provisionHandler store req randomBytes now brokerHost updateFails).2,
        credInvariant d) ∧
    (∀ deviceId newToken,
      ∀ d ∈ (regenerateToken store deviceId newToken).2, credInvariant d) ∧
    (∀ deviceId p, ∀ d ∈ (patchDevice store deviceId p).2, credInvariant d) ∧
    (∀ projects project_id devName hardware_type newId ownerId token,
      ∀ d ∈ (createDevice store projects project_id devName hardware_type
        newId ownerId token).2, credInvariant d) := by
  refine ⟨?_, ?_, ?_, ?_⟩
  · intro req rb now bh fails
    by_cases hv : validProvisionRequest req = true
    · cases hfind : findByToken store req.device_token with
      | none => simpa [provisionHandler, hv, hfind] using hstore
      | some d0 =>
          cases hp : d0.is_provisioned
          · cases hfails : fails
            · have hres : (provisionHandler store req rb now bh false).2 =
                  updateWhere store d0.id
                    (provisionUpdate (mkMqttUsername d0.project_user_id d0.id)
                      (hashPassword (generateSecurePassword rb))
                      req.mac_address req.firmware_version now) := by
                simp [provisionHandler, hv, hfind, hp]
              rw [hres]
              exact credInvariant_updateWhere store d0.id _ hstore
                (fun x _ => by simp [credInvariant, provisionUpdate])
            · simpa [provisionHandler, hv, hfind, hp] using hstore
          · simpa [provisionHandler, hv, hfind, hp] using hstore
    · simpa [provisionHandler, hv] using hstore
  · intro deviceId newToken
    cases hfind : store.find? (fun x => x.id == deviceId) with
    | none => simpa [regenerateToken, hfind] using hstore
    | some d0 =>
        have hres : (regenerateToken store deviceId newToken).2 =
            updateWhere store deviceId (regenUpdate newToken) := by
          simp [regenerateToken, hfind]
        rw [hres]
        exact credInvariant_updateWhere store deviceId _ hstore
          (fun x _ => by simp [credInvariant, regenUpdate])
  · intro deviceId p
    by_cases h1 : validPatch p = true
    · by_cases h2 : (p.name == none && p.hardware_type == none) = true
      · simpa [patchDevice, h1, h2] using hstore
      · cases h3 : store.find? (fun x => x.id == deviceId) with
        | none => simpa [patchDevice, h1, h2, h3] using hstore
        | some d0 =>
            have hres : (patchDevice store deviceId p).2 =
                updateWhere store deviceId (patchUpdate p) := by
              simp [patchDevice, h1, h2, h3]
            rw [hres]
            exact credInvariant_updateWhere store deviceId _ hstore
              (fun x hx => by simpa [credInvariant, patchUpdate] using hx)
    · simpa [patchDevice, h1] using hstore
  · intro projects project_id devName hardware_type newId ownerId token
    by_cases h1 : (1 ≤ devName.length && devName.length ≤ 100) = true
    · by_cases h2 : project_id ∈ projects
      · intro d hd
        have hres : (createDevice store projects project_id devName
            hardware_type newId ownerId token).2 = store ++
            [newDeviceRow project_id ownerId devName hardware_type newId token] := by
          simp [createDevice, h1, h2]
        rw [hres] at hd
        rw [List.mem_append] at hd
        rcases hd with h | h
        · exact hstore d h
        · simp at h
          subst h
          simp [credInvariant, newDeviceRow]
      · simpa [createDevice, h1, h2] using hstore
    · simpa [createDevice, h1] using hstore

theorem cred_invariant_preserved_witness :
    (∀ d ∈ [demoProvisioned], credInvariant d) ∧
    credInvariant (regenUpdate tokenA64 demoProvisioned) ∧
    (∀ d ∈ (provisionHandler [demoDevice] ⟨demoToken, none, none⟩
      (List.replicate 24 3) "t0" none false).2, credInvariant d) :=
  ⟨by decide,
   (cred_invariant_preserved [demoProvisioned] (by decide)).2.1
     demoProvisioned.id tokenA64
     (regenUpdate tokenA64 demoProvisioned) (by decide),
   (cred_invariant_preserved [demoDevice] (by decide)).1
     ⟨demoToken, none, none⟩ (List.replicate 24 3) "t0" none false⟩

def deviceDefault : Device :=
  { id := ""
    project_id := ""
    project_user_id := ""
    name := ""
    hardware_type := ""
    device_token := ""
    is_provisioned := false
    mqtt_username := none
    mqtt_password_hash := none
    mac_address := none
    firmware_version := none
    provisioned_at := none }

/-- The frame of a device row under the device update route: every
column other than name and hardware_type. -/
def patchFrame (d d2 : Device) : Prop :=
  d2.id = d.id ∧ d2.project_id = d.project_id ∧
  d2.project_user_id = d.project_user_id ∧
  d2.device_token = d.device_token ∧ d2.is_provisioned = d.is_provisioned ∧
  d2.mqtt_username = d.mqtt_username ∧
  d2.mqtt_password_hash = d.mqtt_password_hash ∧
  d2.mac_address = d.mac_address ∧ d2.firmware_version = d.firmware_version

instance (d d2 : Device) : Decidable (patchFrame d d2) := by
  unfold patchFrame; infer_instance

/-- Claim C10: the device update route can change only the name and
hardware_type columns of any row, and a request supplying neither field
is rejected with a 400 without touching the store. -/
theorem patch_only_name_hardware (store : Store) (deviceId : String)
    (p : DevicePatch) :
    ((patchDevice store deviceId p).2).length = store.length ∧
    (∀ i, i < store.length →
      patchFrame (store.getD i deviceDefault)
        (((patchDevice store deviceId p).2).getD i deviceDefault)) ∧
    (p.name = none → p.hardware_type = none →
      patchDevice store deviceId p = (.badRequest, store)) := by
  have hframe_refl : ∀ d : Device, patchFrame d d :=
    fun d => ⟨rfl, rfl, rfl, rfl, rfl, rfl, rfl, rfl, rfl⟩
  have hcases : (patchDevice store deviceId p).2 = store ∨
      (patchDevice store deviceId p).2 =
        updateWhere store deviceId (patchUpdate p) := by
    by_cases h1 : validPatch p = true
    · by_cases h2 : (p.name == none && p.hardware_type == none) = true
      · left; simp [patchDevice, h1, h2]
      · cases h3 : store.find? (fun x => x.id == deviceId) with
        | none => left; simp [patchDevice, h1, h2, h3]
        | some d0 => right; simp [patchDevice, h1, h2, h3]
    · left; simp [patchDevice, h1]
  refine ⟨?_, ?_, ?_⟩
  · rcases hcases with h | h <;> rw [h]
    simp [updateWhere]
  · intro i hi
    rcases hcases with h | h
    · rw [h]; exact hframe_refl _
    · rw [h]
      unfold updateWhere
      obtain ⟨a, ha⟩ : ∃ a, store[i]? = some a :=
        ⟨_, List.getElem?_eq_getElem hi⟩
      rw [List.getD_eq_getElem?_getD, List.getD_eq_getElem?_getD,
        List.getElem?_map, ha]
      simp only [Option.map_some', Option.getD_some]
      cases hid : a.id == deviceId
      · simp only [hid, Bool.false_eq_true, if_false]
        exact hframe_refl a
      · simp only [hid, if_true]
        exact ⟨rfl, rfl, rfl, rfl, rfl, rfl, rfl, rfl, rfl⟩
  · intro hn hh
    simp [patchDevice, validPatch, hn, hh]

theorem patch_only_name_hardware_witness :
    patchDevice [demoProvisioned] demoProvisioned.id ⟨none, none⟩ =
      (.badRequest, [demoProvisioned]) ∧
    (0 : Nat) < [demoProvisioned].length ∧
    patchFrame ([demoProvisioned].getD 0 deviceDefault)
      (((patchDevice [demoProvisioned] demoProvisioned.id
        ⟨some ("renamed"), none⟩).2).getD 0 deviceDefault) :=
  ⟨(patch_only_name_hardware [demoProvisioned] demoProvisioned.id
      ⟨none, none⟩).2.2 rfl rfl,
   by decide,
   (patch_only_name_hardware [demoProvisioned] demoProvisioned.id
      ⟨some ("renamed"), none⟩).2.1 0 (by decide)⟩

/-- Claim C7: a plaintext password is carried only by the provision
success path, never by the 400, 401, 409 or 500 outcomes, and no device
route response exposes the stored password hash: list, get, create and
update blank the hash field and the regenerate response serialises the
just-nulled hash column. -/
theorem no_hash_or_password_exposure :
    (∀ (store : Store) (req : ProvisionRequest) (randomBytes : List Nat)
        (now : String) (brokerHost : Option String) (updateFails : Bool),
      passwordOf
        (provisionHandler store req randomBytes now brokerHost updateFails).1 ≠
        none →
      validProvisionRequest req = true ∧ updateFails = false ∧
      ∃ d, findByToken store req.device_token = some d ∧
        d.is_provisioned = false) ∧
    (∀ (store : Store) (projectFilter : Option String) (j : DeviceJson),
      j ∈ listDevices store projectFilter →
      j.mqtt_password_hash = none ∧ j.device_token = none) ∧
    (∀ (store : Store) (deviceId : String) (j : DeviceJson),
      getDevice store deviceId = .ok j →
      j.mqtt_password_hash = none ∧ j.device_token = none) ∧
    (∀ (store : Store) (projects : List String)
        (project_id devName : String) (hardware_type : Option String)
        (newId ownerId token : String) (j : DeviceJson) (msg : String),
      (createDevice store projects project_id devName hardware_type newId
        ownerId token).1 = .created j msg → j.mqtt_password_hash = none) ∧
    (∀ (store : Store) (deviceId : String) (p : DevicePatch) (j : DeviceJson),
      (patchDevice store deviceId p).1 = .ok j →
      j.mqtt_password_hash = none ∧ j.device_token = none) ∧
    (∀ (store : Store) (deviceId newToken : String) (j : DeviceJson)
        (msg : String),
      (regenerateToken store deviceId newToken).1 = .ok j msg →
      j.mqtt_password_hash = none) := by
  refine ⟨?_, ?_, ?_, ?_, ?_, ?_⟩
  · intro store req rb now bh fails hne
    by_cases hv : validProvisionRequest req = true
    · cases hfind : findByToken store req.device_token with
      | none =>
          exact absurd (by simp [provisionHandler, hv, hfind, passwordOf]) hne
      | some d0 =>
          cases hp : d0.is_provisioned
          · cases hfails : fails
            · exact ⟨hv, rfl, d0, rfl, hp⟩
            · exact absurd
                (by simp [provisionHandler, hv, hfind, hp, hfails, passwordOf])
                hne
          · exact absurd
              (by simp [provisionHandler, hv, hfind, hp, passwordOf]) hne
    · exact absurd (by simp [provisionHandler, hv, passwordOf]) hne
  · intro store projectFilter j hj
    unfold listDevices at hj
    rw [List.mem_map] at hj
    obtain ⟨a, _, rfl⟩ := hj
    exact ⟨rfl, rfl⟩
  · intro store deviceId j hj
    cases hfind : store.find? (fun x => x.id == deviceId) with
    | none => simp [getDevice, hfind] at hj
    | some d0 =>
        simp only [getDevice, hfind] at hj
        injection hj with hj2
        rw [← hj2]
        exact ⟨rfl, rfl⟩
  · intro store projects project_id devName hardware_type newId ownerId token
      j msg hj
    by_cases h1 : (1 ≤ devName.length && devName.length ≤ 100) = true
    · by_cases h2 : project_id ∈ projects
      · have hres : (createDevice store projects project_id devName
            hardware_type newId ownerId token).1 = .created
            { deviceToJson (newDeviceRow project_id ownerId devName
                hardware_type newId token) with mqtt_password_hash := none }
            "Save this device_token! It will not be shown again." := by
          simp [createDevice, h1, h2]
        rw [hres] at hj
        injection hj with hj2 hj3
        rw [← hj2]
      · rw [show (createDevice store projects project_id devName hardware_type
            newId ownerId token).1 = .projectNotFound from by
            simp [createDevice, h1, h2]] at hj
        exact absurd hj (by simp)
    · rw [show (createDevice store projects project_id devName hardware_type
          newId ownerId token).1 = .badRequest from by
          simp [createDevice, h1]] at hj
      exact absurd hj (by simp)
  · intro store deviceId p j hj
    by_cases h1 : validPatch p = true
    · by_cases h2 : (p.name == none && p.hardware_type == none) = true
      · rw [show (patchDevice store deviceId p).1 = .badRequest from by
            simp [patchDevice, h1, h2]] at hj
        exact absurd hj (by simp)
      · cases h3 : store.find? (fun x => x.id == deviceId) with
        | none =>
            rw [show (patchDevice store deviceId p).1 = .notFound from by
              simp [patchDevice, h1, h2, h3]] at hj
            exact absurd hj (by simp)
        | some d0 =>
            rw [show (patchDevice store deviceId p).1 =
                .ok (sanitizeDevice (patchUpdate p d0)) from by
              simp [patchDevice, h1, h2, h3]] at hj
            injection hj with hj2
            rw [← hj2]
            exact ⟨rfl, rfl⟩
    · rw [show (patchDevice store deviceId p).1 = .badRequest from by
          simp [patchDevice, h1]] at hj
      exact absurd hj (by simp)
  · intro store deviceId newToken j msg hj
    cases hfind : store.find? (fun x => x.id == deviceId) with
    | none => simp [regenerateToken, hfind] at hj
    | some d0 =>
        rw [show (regenerateToken store deviceId newToken).1 =
            .ok (deviceToJson (regenUpdate newToken d0))
            "New device_token generated. Save it! The old token is now invalid."
          from by simp [regenerateToken, hfind]] at hj
        injection hj with hj2 hj3
        rw [← hj2]
        rfl

theorem no_hash_or_password_exposure_witness :
    passwordOf (provisionHandler [demoDevice] ⟨demoToken, none, none⟩
      (List.replicate 24 4) "t0" none false).1 ≠ none ∧
    (validProvisionRequest ⟨demoToken, none, none⟩ = true ∧
      (false : Bool) = false ∧
      ∃ d, findByToken [demoDevice] demoToken = some d ∧
        d.is_provisioned = false) ∧
    (sanitizeDevice demoProvisioned ∈ listDevices [demoProvisioned] none) ∧
    ((sanitizeDevice demoProvisioned).mqtt_password_hash = none ∧
      (sanitizeDevice demoProvisioned).device_token = none) ∧
    (getDevice [demoProvisioned] demoProvisioned.id =
      .ok (sanitizeDevice demoProvisioned)) ∧
    ((sanitizeDevice demoProvisioned).mqtt_password_hash = none) ∧
    ((deviceToJson (regenUpdate tokenA64 demoProvisioned)).mqtt_password_hash =
      none) := by
  have hne : passwordOf (provisionHandler [demoDevice] ⟨demoToken, none, none⟩
      (List.replicate 24 4) "t0" none false).1 ≠ none := by
    have h1 : validProvisionRequest ⟨demoToken, none, none⟩ = true := by decide
    have h2 : findByToken [demoDevice] demoToken = some demoDevice := by decide
    have h3 : demoDevice.is_provisioned = false := by decide
    simp [provisionHandler, h1, h2, h3, passwordOf]
  refine ⟨hne,
    no_hash_or_password_exposure.1 [demoDevice] ⟨demoToken, none, none⟩
      (List.replicate 24 4) "t0" none false hne,
    by decide,
    (no_hash_or_password_exposure.2.1 [demoProvisioned] none
      (sanitizeDevice demoProvisioned) (by decide)),
    by decide,
    (no_hash_or_password_exposure.2.2.1 [demoProvisioned] demoProvisioned.id
      (sanitizeDevice demoProvisioned) (by decide)).1,
    no_hash_or_password_exposure.2.2.2.2.2 [demoProvisioned]
      demoProvisioned.id tokenA64 (deviceToJson (regenUpdate tokenA64 demoProvisioned))
      "New device_token generated. Save it! The old token is now invalid."
      (by decide)⟩
